import Mathlib

/-!
# Verification of the news-feed screens

Shallow embedding of the two screen components of this repository:

* the mock infinite-scroll screen (`Mock` namespace), which paginates a
  static 50-item dataset in batches of 5 through a simulated network call;
* the remote screen (`Remote` namespace), which performs a single GET to
  the backend `/top-news` endpoint and stores the returned article list.

Each screen's `fetchData` routine is modelled as a state transformer on the
component's React state.  One completed invocation of `fetchData` is one
application of the transformer; the outcome of the awaited network call is
passed explicitly (`Except.ok` for a resolved promise, `Except.error` for a
thrown exception), so that both the success and the catch paths of the
source are represented.  The transformer additionally returns the number of
network requests it launched (0 when the initial guard returns early,
1 otherwise), which lets us state the no-duplicate-fetch properties.
-/

set_option maxRecDepth 4000

namespace Mock

/-- One entry of `MOCK_DATA`: `{ id: index + 1, title: `News ${index+1}` }`
(the `thumbnail` field is a fixed local asset, identical for every item,
and is omitted from the model). -/
structure MockItem where
  id : Nat
  title : String
deriving Repr, DecidableEq

/-- `TOTAL_ITEMS = 50`. -/
def TOTAL_ITEMS : Nat := 50

/-- `PAGE_SIZE = 5`. -/
def PAGE_SIZE : Nat := 5

/-- JavaScript `Array.prototype.slice(start, stop)` for non-negative
indices: the elements from `start` (inclusive) to `stop` (exclusive),
clamped to the array bounds. -/
def jsSlice (l : List α) (start stop : Nat) : List α :=
  (l.drop start).take (stop - start)

/-- `MOCK_DATA`: 50 synthetic items, `id = index + 1`,
`title = "News " ++ (index + 1)`. -/
def MOCK_DATA : List MockItem :=
  (List.range TOTAL_ITEMS).map (fun index =>
    { id := index + 1, title := "News " ++ toString (index + 1) })

/-- The value the promise built by `simulateFetch(page)` resolves with:
`MOCK_DATA.slice((page - 1) * PAGE_SIZE, (page - 1) * PAGE_SIZE + PAGE_SIZE)`. -/
def simulateFetchResult (page : Nat) : List MockItem :=
  jsSlice MOCK_DATA ((page - 1) * PAGE_SIZE) ((page - 1) * PAGE_SIZE + PAGE_SIZE)

/-- `simulateFetch(page)`: the promise executor only ever calls `resolve`
with the slice above (after a timer), so as an `Except` it is always `ok`. -/
def simulateFetch (page : Nat) : Except String (List MockItem) :=
  Except.ok (simulateFetchResult page)

/-- React state of the mock screen: `data`, `page`, `loading`, `hasMore`. -/
structure MockState where
  data : List MockItem
  page : Nat
  loading : Bool
  hasMore : Bool
deriving Repr, DecidableEq

/-- Initial state on mount: `[]`, page `1`, not loading, `hasMore = true`. -/
def initialState : MockState :=
  { data := [], page := 1, loading := false, hasMore := true }

/-- One completed invocation of the mock screen's `fetchData`, with the
outcome of the awaited `simulateFetch` call passed explicitly.  Returns the
new state and the number of network requests launched (0 when the
`if (loading || !hasMore) return;` guard fires, 1 otherwise).  On success,
an empty result sets `hasMore` to `false`, a non-empty result is appended
to `data` and `page` is incremented; the `catch` branch only logs; the
`finally` branch resets `loading` to `false` in every launched run. -/
def fetchDataWith (outcome : Except String (List MockItem)) (s : MockState) :
    MockState × Nat :=
  if s.loading || !s.hasMore then (s, 0)
  else
    match outcome with
    | Except.ok result =>
        if result.length == 0 then
          ({ s with hasMore := false, loading := false }, 1)
        else
          ({ s with data := s.data ++ result, page := s.page + 1,
                    loading := false }, 1)
    | Except.error _ => ({ s with loading := false }, 1)

/-- One completed invocation of the mock `fetchData` as it actually runs:
the awaited call is `simulateFetch(page)`. -/
def fetchData (s : MockState) : MockState :=
  (fetchDataWith (simulateFetch s.page) s).1

end Mock

namespace Remote

/-- A news article as consumed by the remote screen: `title`, optional
`summary`, optional `content` (a missing JSON key is `none`). -/
structure Article where
  title : String
  summary : Option String
  content : Option String
deriving Repr, DecidableEq

/-- React state of the remote screen: `data`, `loading`, `hasMore`
(no page counter exists in this variant). -/
structure RemoteState where
  data : List Article
  loading : Bool
  hasMore : Bool
deriving Repr, DecidableEq

/-- Initial state on mount: `[]`, not loading, `hasMore = true`. -/
def initialState : RemoteState :=
  { data := [], loading := false, hasMore := true }

/-- Outcome of the awaited `fetch` + `response.json()` pair:
`Except.error` when either throws; otherwise `Except.ok` carrying
`json.articles` (`none` when the parsed object has no `articles` key). -/
abbrev FetchOutcome := Except String (Option (List Article))

/-- One completed invocation of the remote screen's `fetchData`, with the
network outcome passed explicitly.  Returns the new state and the number of
GET requests issued (0 when the `if (loading || !hasMore)` guard fires,
1 otherwise).  `json.articles && json.articles.length > 0` stores the
articles and sets `hasMore := false`; otherwise (missing key or empty
array) only `hasMore := false`; the `catch` branch only logs; the `finally`
branch resets `loading` to `false` in every launched run. -/
def fetchDataWith (outcome : FetchOutcome) (s : RemoteState) :
    RemoteState × Nat :=
  if s.loading || !s.hasMore then (s, 0)
  else
    match outcome with
    | Except.ok oArticles =>
        match oArticles with
        | some articles =>
            if articles.length > 0 then
              ({ s with data := articles, hasMore := false, loading := false }, 1)
            else
              ({ s with hasMore := false, loading := false }, 1)
        | none => ({ s with hasMore := false, loading := false }, 1)
    | Except.error _ => ({ s with loading := false }, 1)

/-- JavaScript truthiness of `item.summary`: `undefined` and the empty
string are falsy, every other string is truthy. -/
def truthySummary : Option String → Bool
  | some s => !(s == "")
  | none => false

/-- The body text displayed by `renderItem`:
`item.summary ? item.summary : item.content`. -/
def displayedBody (item : Article) : Option String :=
  if truthySummary item.summary then item.summary else item.content

/-- The titles of the rows the `FlatList` renders: one row per element of
`data`, each showing `item.title`. -/
def renderedTitles (s : RemoteState) : List String :=
  s.data.map Article.title

end Remote

/-! ## Helper lemmas about the mock screen's state transition -/

namespace Mock

/-- Unfolding of one completed mock `fetchData` run: guard, end-of-data
test on the slice, append-and-advance. -/
theorem fetchData_char (s : MockState) :
    fetchData s =
      if s.loading || !s.hasMore then s
      else if (simulateFetchResult s.page).length == 0 then
        { s with hasMore := false, loading := false }
      else
        { s with data := s.data ++ simulateFetchResult s.page,
                 page := s.page + 1, loading := false } := by
  unfold fetchData fetchDataWith simulateFetch
  split
  · rfl
  · dsimp only
    split <;> rfl

/-- One `fetchData` step preserves the prefix invariant: `data` is the
first `(page - 1) * PAGE_SIZE` elements of `MOCK_DATA` and `page ≥ 1`. -/
theorem inv_step (s : MockState)
    (h1 : s.data = MOCK_DATA.take ((s.page - 1) * PAGE_SIZE))
    (h2 : 1 ≤ s.page) :
    (fetchData s).data
      = MOCK_DATA.take (((fetchData s).page - 1) * PAGE_SIZE)
    ∧ 1 ≤ (fetchData s).page := by
  rw [fetchData_char]
  split
  · exact ⟨h1, h2⟩
  · split
    · exact ⟨h1, h2⟩
    · refine ⟨?_, Nat.le_succ_of_le h2⟩
      show s.data ++ simulateFetchResult s.page
          = MOCK_DATA.take ((s.page + 1 - 1) * PAGE_SIZE)
      rw [h1]
      have harith : (s.page + 1 - 1) * PAGE_SIZE
          = (s.page - 1) * PAGE_SIZE + PAGE_SIZE := by
        simp only [PAGE_SIZE]
        omega
      rw [harith, List.take_add]
      congr 1
      unfold simulateFetchResult jsSlice
      congr 1
      omega

/-- Every state reachable by completed `fetchData` runs from the initial
state satisfies the prefix invariant. -/
theorem inv_reachable (n : Nat) :
    (fetchData^[n] initialState).data
      = MOCK_DATA.take (((fetchData^[n] initialState).page - 1) * PAGE_SIZE)
    ∧ 1 ≤ (fetchData^[n] initialState).page := by
  induction n with
  | zero => exact ⟨rfl, Nat.le_refl 1⟩
  | succ n ih =>
      rw [Function.iterate_succ_apply']
      exact inv_step _ ih.1 ih.2

/-- The `i`-th element of `MOCK_DATA` has id `i + 1` and title
`"News " ++ (i + 1)`. -/
theorem MOCK_DATA_getElem (i : Nat) (h : i < MOCK_DATA.length) :
    MOCK_DATA[i] = { id := i + 1, title := "News " ++ toString (i + 1) } := by
  unfold MOCK_DATA at h ⊢
  rw [List.getElem_map, List.getElem_range]

end Mock

/-! ## The claims -/

/-- Claim C1: from the initial mock state, each of the first 10 completed
`fetchData` invocations appends exactly the 5-item slice of `MOCK_DATA`
for the current page and increments the page counter, leaving `hasMore`
true throughout; after 10 invocations `data` is all of `MOCK_DATA`
(50 items); the 11th invocation receives the empty slice from
`simulateFetch` and only sets `hasMore` to `false`, leaving `data` and
`page` unchanged, and the resulting state is a fixed point of `fetchData`
(the stop is permanent). -/
theorem mock_ten_pages_then_exhausted :
    (∀ k, k < 10 →
      (Mock.fetchData^[k + 1] Mock.initialState).data
          = (Mock.fetchData^[k] Mock.initialState).data
            ++ Mock.simulateFetchResult ((Mock.fetchData^[k] Mock.initialState).page)
        ∧ (Mock.simulateFetchResult
            ((Mock.fetchData^[k] Mock.initialState).page)).length = 5
        ∧ (Mock.fetchData^[k + 1] Mock.initialState).page
            = (Mock.fetchData^[k] Mock.initialState).page + 1
        ∧ (Mock.fetchData^[k] Mock.initialState).hasMore = true
        ∧ (Mock.fetchData^[k] Mock.initialState).loading = false)
    ∧ (Mock.fetchData^[10] Mock.initialState).data = Mock.MOCK_DATA
    ∧ (Mock.fetchData^[10] Mock.initialState).data.length = 50
    ∧ Mock.simulateFetchResult ((Mock.fetchData^[10] Mock.initialState).page) = []
    ∧ Mock.fetchData^[11] Mock.initialState
        = { Mock.fetchData^[10] Mock.initialState with hasMore := false }
    ∧ Mock.fetchData (Mock.fetchData^[11] Mock.initialState)
        = Mock.fetchData^[11] Mock.initialState := by
  decide

/-- Witness for C1: the step from the third to the fourth completed fetch. -/
theorem mock_ten_pages_then_exhausted_witness :
    (Mock.fetchData^[3 + 1] Mock.initialState).data
        = (Mock.fetchData^[3] Mock.initialState).data
          ++ Mock.simulateFetchResult ((Mock.fetchData^[3] Mock.initialState).page)
      ∧ (Mock.simulateFetchResult
          ((Mock.fetchData^[3] Mock.initialState).page)).length = 5
      ∧ (Mock.fetchData^[3 + 1] Mock.initialState).page
          = (Mock.fetchData^[3] Mock.initialState).page + 1
      ∧ (Mock.fetchData^[3] Mock.initialState).hasMore = true
      ∧ (Mock.fetchData^[3] Mock.initialState).loading = false :=
  mock_ten_pages_then_exhausted.1 3 (by decide)

/-- Claim C2: on the remote screen, a response parsing to
`{ articles: [{title:"A"}, {title:"B"}] }` leaves `data` equal to exactly
those two articles, rendered as the two rows titled "A" and "B", with
`hasMore` false and `loading` false; after that, every invocation of
`fetchData` — whatever the network would answer — returns at the guard
with the state unchanged and zero requests issued. -/
theorem remote_two_articles_render :
    ((Remote.fetchDataWith
        (Except.ok (some [⟨"A", none, none⟩, ⟨"B", none, none⟩]))
        Remote.initialState).1.data
      = [⟨"A", none, none⟩, ⟨"B", none, none⟩])
    ∧ Remote.renderedTitles
        (Remote.fetchDataWith
          (Except.ok (some [⟨"A", none, none⟩, ⟨"B", none, none⟩]))
          Remote.initialState).1 = ["A", "B"]
    ∧ (Remote.fetchDataWith
        (Except.ok (some [⟨"A", none, none⟩, ⟨"B", none, none⟩]))
        Remote.initialState).1.hasMore = false
    ∧ (Remote.fetchDataWith
        (Except.ok (some [⟨"A", none, none⟩, ⟨"B", none, none⟩]))
        Remote.initialState).1.loading = false
    ∧ ∀ out : Remote.FetchOutcome,
        Remote.fetchDataWith out
          (Remote.fetchDataWith
            (Except.ok (some [⟨"A", none, none⟩, ⟨"B", none, none⟩]))
            Remote.initialState).1
        = ((Remote.fetchDataWith
            (Except.ok (some [⟨"A", none, none⟩, ⟨"B", none, none⟩]))
            Remote.initialState).1, 0) :=
  ⟨rfl, rfl, rfl, rfl, fun _ => rfl⟩

/-- Counterexample to claim C3: a fetch/parse error does NOT reach the
same end state as an empty-articles response.  The `catch` branch of the
remote `fetchData` only logs — it never touches `hasMore` — so after an
error from the initial state `hasMore` is still `true`, while after
`{ articles: [] }` it is `false`. -/
theorem remote_error_vs_empty_counterexample :
    ((Remote.fetchDataWith (Except.error "network failure")
        Remote.initialState).1).hasMore = true
    ∧ ((Remote.fetchDataWith (Except.ok (some []))
        Remote.initialState).1).hasMore = false
    ∧ (Remote.fetchDataWith (Except.error "network failure")
        Remote.initialState).1
      ≠ (Remote.fetchDataWith (Except.ok (some []))
        Remote.initialState).1 := by
  decide

/-- Amended claim C3: an empty-articles response and a fetch/parse error
both leave zero rendered rows, but only the empty response sets `hasMore`
to `false` and permanently stops fetching; an error leaves `hasMore` true
(only `loading` is reset), so the next end-of-list trigger issues another
request. -/
theorem remote_error_vs_empty_amended (e : String) :
    (Remote.fetchDataWith (Except.ok (some [])) Remote.initialState).1
      = { data := [], loading := false, hasMore := false }
    ∧ (Remote.fetchDataWith (Except.error e) Remote.initialState).1
      = { data := [], loading := false, hasMore := true }
    ∧ Remote.renderedTitles
        (Remote.fetchDataWith (Except.ok (some [])) Remote.initialState).1 = []
    ∧ Remote.renderedTitles
        (Remote.fetchDataWith (Except.error e) Remote.initialState).1 = []
    ∧ (∀ out : Remote.FetchOutcome,
        Remote.fetchDataWith out
          (Remote.fetchDataWith (Except.ok (some [])) Remote.initialState).1
          = ((Remote.fetchDataWith (Except.ok (some []))
              Remote.initialState).1, 0))
    ∧ (∀ out : Remote.FetchOutcome,
        (Remote.fetchDataWith out
          (Remote.fetchDataWith (Except.error e) Remote.initialState).1).2
        = 1) :=
  ⟨rfl, rfl, rfl, rfl, fun _ => rfl, fun out => by
    cases out with
    | ok oarts =>
        cases oarts with
        | none => rfl
        | some arts =>
            by_cases hlen : arts.length > 0 <;>
              simp [Remote.fetchDataWith, Remote.initialState, hlen]
    | error _ => rfl⟩

/-- Claim C4: in both screens, from every state with `loading = true` or
`hasMore = false`, a `fetchData` invocation returns at the guard: the
state is returned unchanged and zero network requests are launched. -/
theorem guard_blocks_reentry (ms : Mock.MockState) (rs : Remote.RemoteState)
    (out : Remote.FetchOutcome)
    (hm : ms.loading = true ∨ ms.hasMore = false)
    (hr : rs.loading = true ∨ rs.hasMore = false) :
    Mock.fetchDataWith (Mock.simulateFetch ms.page) ms = (ms, 0)
    ∧ Remote.fetchDataWith out rs = (rs, 0) := by
  constructor
  · rcases hm with h | h <;> simp [Mock.fetchDataWith, h]
  · rcases hr with h | h <;> simp [Remote.fetchDataWith, h]

/-- Witness for C4: a loading mock state and an exhausted remote state. -/
theorem guard_blocks_reentry_witness :
    Mock.fetchDataWith
        (Mock.simulateFetch (Mock.MockState.mk [] 1 true true).page)
        (Mock.MockState.mk [] 1 true true)
      = (Mock.MockState.mk [] 1 true true, 0)
    ∧ Remote.fetchDataWith (Except.error "boom")
        (Remote.RemoteState.mk [] false false)
      = (Remote.RemoteState.mk [] false false, 0) :=
  guard_blocks_reentry (Mock.MockState.mk [] 1 true true)
    (Remote.RemoteState.mk [] false false) (Except.error "boom")
    (Or.inl rfl) (Or.inr rfl)

/-- Counterexample to claim C5: the rendered body text is
`item.summary ? item.summary : item.content`, and a present-but-empty
summary string is falsy in JavaScript, so for
`{title:"t", summary:"", content:"c"}` the displayed body is the content
`"c"`, not the present summary `""`. -/
theorem remote_body_empty_summary_counterexample :
    (Remote.Article.mk "t" (some "") (some "c")).summary = some ""
    ∧ Remote.displayedBody (Remote.Article.mk "t" (some "") (some "c"))
        = some "c"
    ∧ Remote.displayedBody (Remote.Article.mk "t" (some "") (some "c"))
        ≠ (Remote.Article.mk "t" (some "") (some "c")).summary := by
  decide

/-- Amended claim C5: the displayed body equals `item.summary` when the
summary is present and non-empty; when the summary is absent or the empty
string it equals `item.content`; and it is undefined/blank when neither
key exists. -/
theorem remote_body_fallback_amended (item : Remote.Article) :
    (∀ s, item.summary = some s → s ≠ "" →
        Remote.displayedBody item = some s)
    ∧ ((item.summary = none ∨ item.summary = some "") →
        Remote.displayedBody item = item.content)
    ∧ (item.summary = none → item.content = none →
        Remote.displayedBody item = none) := by
  refine ⟨?_, ?_, ?_⟩
  · intro s hs hne
    simp [Remote.displayedBody, Remote.truthySummary, hs, hne]
  · rintro (hs | hs) <;> simp [Remote.displayedBody, Remote.truthySummary, hs]
  · intro hs hc
    simp [Remote.displayedBody, Remote.truthySummary, hs, hc]

/-- Witness for the amended C5: a non-empty summary is displayed. -/
theorem remote_body_fallback_amended_witness :
    Remote.displayedBody (Remote.Article.mk "t" (some "x") none) = some "x" :=
  (remote_body_fallback_amended (Remote.Article.mk "t" (some "x") none)).1
    "x" rfl (by decide)

/-- Claim C6: in both variants every assignment to `hasMore` writes
`false`, so `hasMore` cannot come back: if it is `true` after a completed
run it was `true` before; a launched mock run that receives zero items
sets it to `false`, a launched remote run that receives any response sets
it to `false`; and once `hasMore` is `false` every later invocation leaves
the state fixed, so fetching never resumes. -/
theorem hasMore_false_is_permanent :
    (∀ (out : Except String (List Mock.MockItem)) (s : Mock.MockState),
        (Mock.fetchDataWith out s).1.hasMore = true → s.hasMore = true)
    ∧ (∀ (out : Remote.FetchOutcome) (s : Remote.RemoteState),
        (Remote.fetchDataWith out s).1.hasMore = true → s.hasMore = true)
    ∧ (∀ s : Mock.MockState, s.loading = false → s.hasMore = true →
        (Mock.fetchDataWith (Except.ok []) s).1.hasMore = false)
    ∧ (∀ (oarts : Option (List Remote.Article)) (s : Remote.RemoteState),
        s.loading = false → s.hasMore = true →
        (Remote.fetchDataWith (Except.ok oarts) s).1.hasMore = false)
    ∧ (∀ s : Mock.MockState, s.hasMore = false → Mock.fetchData s = s)
    ∧ (∀ (out : Remote.FetchOutcome) (s : Remote.RemoteState),
        s.hasMore = false → (Remote.fetchDataWith out s).1 = s) := by
  refine ⟨?_, ?_, ?_, ?_, ?_, ?_⟩
  · intro out s h
    by_cases hl : s.loading
    · simpa [Mock.fetchDataWith, hl] using h
    · by_cases hm : s.hasMore
      · exact hm
      · simp [Mock.fetchDataWith, hl, hm] at h
  · intro out s h
    by_cases hl : s.loading
    · simpa [Remote.fetchDataWith, hl] using h
    · by_cases hm : s.hasMore
      · exact hm
      · simp [Remote.fetchDataWith, hl, hm] at h
  · intro s hl hm
    simp [Mock.fetchDataWith, hl, hm]
  · intro oarts s hl hm
    cases oarts with
    | none => simp [Remote.fetchDataWith, hl, hm]
    | some arts =>
        by_cases hlen : arts.length > 0 <;>
          simp [Remote.fetchDataWith, hl, hm, hlen]
  · intro s hm
    simp [Mock.fetchData, Mock.fetchDataWith, hm]
  · intro out s hm
    simp [Remote.fetchDataWith, hm]

/-- Witness for C6: a launched mock run receiving zero items turns
`hasMore` off. -/
theorem hasMore_false_is_permanent_witness :
    (Mock.fetchDataWith (Except.ok [])
        (Mock.MockState.mk [] 1 false true)).1.hasMore = false :=
  hasMore_false_is_permanent.2.2.1 (Mock.MockState.mk [] 1 false true) rfl rfl

/-- Claim C7: in the mock screen a throwing fetch leaves `data`, `page`
and `hasMore` unchanged and resets `loading` to `false` (the `finally`
step); when the run was launched (`hasMore` was true), the next
end-of-list trigger launches a request again, for the same page. -/
theorem mock_error_preserves_state (s : Mock.MockState) (e : String)
    (h : s.loading = false) :
    (Mock.fetchDataWith (Except.error e) s).1.data = s.data
    ∧ (Mock.fetchDataWith (Except.error e) s).1.page = s.page
    ∧ (Mock.fetchDataWith (Except.error e) s).1.hasMore = s.hasMore
    ∧ (Mock.fetchDataWith (Except.error e) s).1.loading = false
    ∧ (s.hasMore = true →
        (Mock.fetchDataWith
          (Mock.simulateFetch ((Mock.fetchDataWith (Except.error e) s).1.page))
          (Mock.fetchDataWith (Except.error e) s).1).2 = 1
        ∧ (Mock.fetchDataWith (Except.error e) s).1.page = s.page) := by
  by_cases hm : s.hasMore
  · simp [Mock.fetchDataWith, h, hm, Mock.simulateFetch]
    split <;> rfl
  · simp [Mock.fetchDataWith, h, hm]

/-- Witness for C7: an error on the very first fetch. -/
theorem mock_error_preserves_state_witness :
    (Mock.fetchDataWith (Except.error "timeout") Mock.initialState).1.data
        = Mock.initialState.data
    ∧ (Mock.fetchDataWith (Except.error "timeout") Mock.initialState).1.page
        = Mock.initialState.page
    ∧ (Mock.fetchDataWith (Except.error "timeout") Mock.initialState).1.hasMore
        = Mock.initialState.hasMore
    ∧ (Mock.fetchDataWith (Except.error "timeout") Mock.initialState).1.loading
        = false
    ∧ (Mock.initialState.hasMore = true →
        (Mock.fetchDataWith
          (Mock.simulateFetch
            ((Mock.fetchDataWith (Except.error "timeout")
              Mock.initialState).1.page))
          (Mock.fetchDataWith (Except.error "timeout")
            Mock.initialState).1).2 = 1
        ∧ (Mock.fetchDataWith (Except.error "timeout")
            Mock.initialState).1.page = Mock.initialState.page) :=
  mock_error_preserves_state Mock.initialState "timeout" rfl

/-- Claim C8: the promise built by `simulateFetch` only ever calls
`resolve`, so for every page it yields `ok` with the slice for that page,
and every completed mock `fetchData` run factors through the `ok` branch —
the defensive `catch` branch is never exercised. -/
theorem mock_simulateFetch_never_rejects :
    (∀ page, Mock.simulateFetch page
        = Except.ok (Mock.simulateFetchResult page))
    ∧ (∀ s : Mock.MockState, ∃ r,
        Mock.simulateFetch s.page = Except.ok r
        ∧ Mock.fetchData s = (Mock.fetchDataWith (Except.ok r) s).1) :=
  ⟨fun _ => rfl, fun s => ⟨Mock.simulateFetchResult s.page, rfl, rfl⟩⟩

/-- Claim C9: in every state reachable from the mock initial state, `data`
is exactly the first `(page - 1) * PAGE_SIZE` elements of `MOCK_DATA` in
order, and the `i`-th displayed item has id `i + 1` (ids strictly
increasing from 1, no duplicates, no gaps, no reordering) with title
`"News " ++ (i + 1)`. -/
theorem mock_data_prefix_invariant (n : Nat) :
    (Mock.fetchData^[n] Mock.initialState).data
      = Mock.MOCK_DATA.take
          (((Mock.fetchData^[n] Mock.initialState).page - 1) * Mock.PAGE_SIZE)
    ∧ ∀ i (h : i < (Mock.fetchData^[n] Mock.initialState).data.length),
        ((Mock.fetchData^[n] Mock.initialState).data.get ⟨i, h⟩).id = i + 1
        ∧ ((Mock.fetchData^[n] Mock.initialState).data.get ⟨i, h⟩).title
            = "News " ++ toString (i + 1) := by
  obtain ⟨h1, _h2⟩ := Mock.inv_reachable n
  refine ⟨h1, ?_⟩
  intro i h
  rw [List.get_eq_getElem]
  simp only [h1] at h ⊢
  have hlt : i < Mock.MOCK_DATA.length := by
    rw [List.length_take] at h
    omega
  rw [List.getElem_take, Mock.MOCK_DATA_getElem i hlt]
  exact ⟨rfl, rfl⟩

/-- Witness for C9: after two completed fetches the eighth displayed item
is item 8, "News 8". -/
theorem mock_data_prefix_invariant_witness :
    (Mock.fetchData^[2] Mock.initialState).data
      = Mock.MOCK_DATA.take
          (((Mock.fetchData^[2] Mock.initialState).page - 1) * Mock.PAGE_SIZE)
    ∧ ((Mock.fetchData^[2] Mock.initialState).data.get ⟨7, by decide⟩).id
        = 7 + 1
    ∧ ((Mock.fetchData^[2] Mock.initialState).data.get ⟨7, by decide⟩).title
        = "News " ++ toString (7 + 1) :=
  ⟨(mock_data_prefix_invariant 2).1,
   ((mock_data_prefix_invariant 2).2 7 (by decide)).1,
   ((mock_data_prefix_invariant 2).2 7 (by decide)).2⟩
